import Mathlib

/-
  Verification development for the operational peer connection core of
  tannewt/matter.js.

  Shallow embedding of:
  * src/unnamed/part_001  — PeerSet: connect, #resume, #connectOrDiscoverNode,
    #pair (nodeCachedData effect), delete, disconnect, #knownOperationalAddressFor
  * src/unnamed/part_002  — PeerAddress interning and PeerAddressMap
  * src/unnamed/part_003  — FloatSchema.validate
  * src/packages/matter.js/src/util/AsyncConstruction.ts — lifecycle handle

  Asynchronous code is embedded as pure state-transformers: each awaited
  external call (reconnect attempt, CASE run) is an oracle parameter giving
  that call's outcome, and scanner/session side effects are recorded in an
  explicit action trace.
-/

set_option maxHeartbeats 1000000
set_option maxRecDepth 100000

namespace MatterJs

/- ===================================================================
   NodeDiscoveryType (src/unnamed/part_001, lines 53-65)
   =================================================================== -/

/-- Discovery kinds, in the order of the TS enum (numeric values 0..3). -/
inductive NodeDiscoveryType where
  | None
  | RetransmissionDiscovery
  | TimedDiscovery
  | FullDiscovery
deriving DecidableEq

/-- Numeric value of the TS enum member; the source compares kinds with the
numeric order of the enum. -/
def NodeDiscoveryType.val : NodeDiscoveryType → Nat
  | .None => 0
  | .RetransmissionDiscovery => 1
  | .TimedDiscovery => 2
  | .FullDiscovery => 3

/- ===================================================================
   Errors, actions, results of #connectOrDiscoverNode
   =================================================================== -/

/-- Error kinds thrown by the peer connection core (part_001). -/
inductive PeerError where
  | implementation (msg : String)
  | discovery (msg : String)
  | noResponseTimeout (msg : String)
  | pairRetransmissionLimitReached (msg : String)
deriving DecidableEq

/-- Externally visible side effects of the orchestrator, in call order. -/
inductive PeerAction where
  | cancelOperationalDeviceDiscovery
  | reconnectKnownAddress
  | removeAllSessionsForNode
deriving DecidableEq

/-- Where the channel returned by #connectOrDiscoverNode comes from.
`awaitExisting ps` is `anyPromise(promises)` over the producer list `ps` of a
pre-existing RunningDiscovery entry (part_001 line 406); `startedDiscovery ps`
is `anyPromise(discoveryPromises)` over freshly created producers after a new
RunningDiscovery entry was registered (lines 491-497). Producers are
identified by numeric ids. -/
inductive ConnectOutcome where
  | directChannel
  | awaitExisting (ps : List Nat)
  | startedDiscovery (ps : List Nat)
deriving DecidableEq

/-- Success-or-thrown-error result of the orchestrator. -/
inductive OrchResultE where
  | ok (o : ConnectOutcome)
  | error (e : PeerError)
deriving DecidableEq

/-- RunningDiscovery (part_001, lines 76-80): `promises` is the list of
pending-channel producers (by id), `timer` records whether a reconnection
polling timer is attached. -/
structure RunningDiscovery where
  type : NodeDiscoveryType
  promises : Option (List Nat)
  timer : Bool
deriving DecidableEq

/-- Result of one #connectOrDiscoverNode call: the value returned or error
thrown, the trace of external calls made, and the final RunningDiscovery
entry for the address. -/
structure OrchestratorRun where
  result : OrchResultE
  actions : List PeerAction
  running : Option RunningDiscovery
deriving DecidableEq

/-- Outcome of one awaited `#reconnectKnownAddress` call (part_001 lines
500-533): a channel, `undefined` after a caught NoResponseTimeoutError, or a
rethrown error. -/
inductive ReconnectOutcome where
  | channel
  | timeout
  | failure (e : PeerError)
deriving DecidableEq

/- ===================================================================
   #connectOrDiscoverNode (src/unnamed/part_001, lines 346-498)

   Arguments `dt`/`ts` are the destructured fields of `discoveryOptions`
   (line 352-356); `opAddr` tells whether `operationalAddress` (the cached
   operational address) is defined; `oracle` is the outcome of the direct
   `#reconnectKnownAddress` attempt if one is made; `nid` supplies fresh ids
   for newly created pending-channel producers.  The mDNS scanner is assumed
   present (otherwise line 366 throws, which no claim concerns).
   =================================================================== -/

/-- `requestedDiscoveryType` with its default (part_001 line 353). -/
def requestedOf (dt : Option NodeDiscoveryType) : NodeDiscoveryType :=
  dt.getD .FullDiscovery

/-- The two configuration checks at part_001 lines 357-362, in source
order. -/
def validationError (dt : Option NodeDiscoveryType) (ts : Option Nat) : Option PeerError :=
  if ts ≠ none ∧ requestedOf dt ≠ .TimedDiscovery then
    some (.implementation "Cannot set timeout without timed discovery.")
  else if requestedOf dt = .RetransmissionDiscovery then
    some (.implementation "Cannot set retransmission discovery type.")
  else
    none

/-- Lines 400-497 of part_001: reuse a pre-existing producer list, or build
the fresh `discoveryPromises` (optional polling producer when a cached
address exists and a FullDiscovery is requested, then the mDNS scan
producer), register the new RunningDiscovery entry and await any of them. -/
def discoveryTail (requested runningType : NodeDiscoveryType)
    (promises : Option (List Nat)) (opAddr : Bool) (nid : Nat)
    (acts : List PeerAction) (entry : Option RunningDiscovery) : OrchestratorRun :=
  match promises with
  | some ps =>
    if runningType.val > requested.val then
      -- We already run a "longer" discovery, so we know it is unreachable for now
      ⟨.error (.discovery "Address is not reachable right now and discovery already running."),
        acts, entry⟩
    else
      -- If we are already discovering this node, so we reuse promises
      ⟨.ok (.awaitExisting ps), acts, entry⟩
  | none =>
    let withTimer := opAddr && (requested == .FullDiscovery)
    let fresh := if withTimer = true then [nid, nid + 1] else [nid]
    ⟨.ok (.startedDiscovery fresh), acts, some ⟨requested, some fresh, withTimer⟩⟩

/-- Lines 385-398 of part_001 (direct reconnect attempt when a cached
address exists and either nothing is running or the caller asked for None),
followed by `discoveryTail`. -/
def afterCancel (requested : NodeDiscoveryType) (promises : Option (List Nat))
    (opAddr : Bool) (oracle : ReconnectOutcome) (nid : Nat)
    (acts : List PeerAction) (entry : Option RunningDiscovery)
    (runningType : NodeDiscoveryType) : OrchestratorRun :=
  if opAddr = true ∧ (runningType = .None ∨ requested = .None) then
    match oracle with
    | .channel =>
      ⟨.ok .directChannel, acts ++ [.reconnectKnownAddress], entry⟩
    | .failure e =>
      ⟨.error e, acts ++ [.reconnectKnownAddress], entry⟩
    | .timeout =>
      if requested = .None then
        ⟨.error (.discovery "Address is not reachable right now."),
          acts ++ [.reconnectKnownAddress], entry⟩
      else
        discoveryTail requested runningType promises opAddr nid
          (acts ++ [.reconnectKnownAddress]) entry
  else
    discoveryTail requested runningType promises opAddr nid acts entry

/-- #connectOrDiscoverNode (part_001 lines 346-498).  Note line 380: when a
running discovery of strictly lower type is cancelled, only its `type` field
is reset to None before the destructuring at line 383 — its `promises` list
survives into the local `promises` variable. -/
def connectOrDiscoverNode (existing : Option RunningDiscovery) (opAddr : Bool)
    (dt : Option NodeDiscoveryType) (ts : Option Nat)
    (oracle : ReconnectOutcome) (nid : Nat) : OrchestratorRun :=
  let requested := requestedOf dt
  match validationError dt ts with
  | some e => ⟨.error e, [], existing⟩
  | none =>
    let details := existing.getD ⟨.None, none, false⟩
    -- If we currently run another "lower" retransmission type we cancel it
    if details.type ≠ .None ∧ details.type.val < requested.val then
      afterCancel requested details.promises opAddr oracle nid
        [.cancelOperationalDeviceDiscovery] none .None
    else
      afterCancel requested details.promises opAddr oracle nid [] existing details.type

/- ===================================================================
   PeerSet.connect / #resume (part_001, lines 216-270 and 328-344)
   =================================================================== -/

/-- Value returned by `connect`: either an InteractionClient over the
already-cached channel (line 223) or one over a channel produced by
#resume. -/
inductive ConnectResult where
  | fromCachedChannel
  | fromDiscovery (o : ConnectOutcome)
deriving DecidableEq

/-- Success-or-thrown-error result of `connect`. -/
inductive ConnectResultE where
  | ok (r : ConnectResult)
  | error (e : PeerError)
deriving DecidableEq

/-- Result of one `connect` call. -/
structure ConnectRun where
  result : ConnectResultE
  actions : List PeerAction
  running : Option RunningDiscovery
deriving DecidableEq

/-- The error classes caught at part_001 line 335: DiscoveryError and
NoResponseTimeoutError. -/
def isResumeCaught : PeerError → Bool
  | .discovery _ => true
  | .noResponseTimeout _ => true
  | _ => false

/-- #resume (part_001 lines 328-344): delegate to #connectOrDiscoverNode;
on DiscoveryError / NoResponseTimeoutError with the peer known, remove all
sessions for the node and rethrow.  `peerKnown` is
`this.#peersByAddress.has(address)`. -/
def PeerSet.resume (peerKnown : Bool) (existing : Option RunningDiscovery)
    (opAddr : Bool) (dt : Option NodeDiscoveryType) (ts : Option Nat)
    (oracle : ReconnectOutcome) (nid : Nat) : OrchestratorRun :=
  let r := connectOrDiscoverNode existing opAddr dt ts oracle nid
  match r.result with
  | .error e =>
    if isResumeCaught e && peerKnown then
      ⟨.error e, r.actions ++ [.removeAllSessionsForNode], r.running⟩
    else r
  | .ok o => ⟨.ok o, r.actions, r.running⟩

/-- `connect` (part_001 lines 216-270): if the channel manager already has a
channel for the address (`hasChannel`), an InteractionClient over it is
returned at once — #resume and with it the configuration validation of
#connectOrDiscoverNode are never reached.  The nodeCachedData read/update of
lines 230-236 is modelled separately (`caseSessionCacheUpdate` below). -/
def PeerSet.connect (hasChannel peerKnown : Bool)
    (existing : Option RunningDiscovery) (opAddr : Bool)
    (dt : Option NodeDiscoveryType) (ts : Option Nat)
    (oracle : ReconnectOutcome) (nid : Nat) : ConnectRun :=
  if hasChannel then
    ⟨.ok .fromCachedChannel, [], existing⟩
  else
    let r := PeerSet.resume peerKnown existing opAddr dt ts oracle nid
    match r.result with
    | .ok o => ⟨.ok (.fromDiscovery o), r.actions, r.running⟩
    | .error e => ⟨.error e, r.actions, r.running⟩

/-- Post-state of a request arriving on top of a strictly lower running
discovery, after the cancellation block has fired (used by the amended C1
statement): a direct reconnect outcome when a cached address exists and the
oracle settles it, else a wait on the cancelled entry's producer list when
one exists, else a freshly registered discovery of the requested type. -/
def c1Post (opAddr : Bool) (oracle : ReconnectOutcome)
    (promises : Option (List Nat)) (requested : NodeDiscoveryType) (nid : Nat)
    (r : OrchestratorRun) : Prop :=
  match opAddr, oracle with
  | true, .channel => r.result = .ok .directChannel ∧ r.running = none
  | true, .failure e => r.result = .error e ∧ r.running = none
  | _, _ =>
    match promises with
    | some ps => r.result = .ok (.awaitExisting ps) ∧ r.running = none
    | none =>
      let withTimer := opAddr && (requested == NodeDiscoveryType.FullDiscovery)
      let fresh := if withTimer = true then [nid, nid + 1] else [nid]
      r.result = .ok (.startedDiscovery fresh) ∧
        r.running = some ⟨requested, some fresh, withTimer⟩

/- ===================================================================
   nodeCachedData and the cache effect of #pair (part_001, lines 126,
   230-236, 577-593)
   =================================================================== -/

/-- Canonical logical address, as a (fabricIndex, nodeId) pair.  The
nodeCachedData map and the PeerSet state below are keyed by canonical
addresses (the `Map` at part_001 line 126 is keyed by interned PeerAddress
objects, which are one-per-(fabric, node); interning itself is modelled
separately for C7). -/
abbrev AddrKey := Nat × Nat

/-- Association-list lookup, first match wins (JS Map.get). -/
def getKey : List (AddrKey × Nat) → AddrKey → Option Nat
  | [], _ => none
  | (p :: rest), a => if p.1 = a then some p.2 else getKey rest a

/-- Association-list deletion (JS Map.delete). -/
def eraseKey : List (AddrKey × Nat) → AddrKey → List (AddrKey × Nat)
  | [], _ => []
  | (p :: rest), a => if p.1 = a then eraseKey rest a else p :: eraseKey rest a

/-- The effect of a successful CASE pairing on `#nodeCachedData` (part_001
lines 586-589): when the CASE driver reports the session was not resumed,
the cached data for the address is deleted before #pair returns; otherwise
the map is untouched.  Cache payloads are abstracted to a Nat. -/
def caseSessionCacheUpdate (cache : List (AddrKey × Nat)) (address : AddrKey)
    (resumed : Bool) : List (AddrKey × Nat) :=
  if resumed = false then eraseKey cache address else cache

/- ===================================================================
   PeerSet.delete / disconnect / get (part_001, lines 275-309)
   =================================================================== -/

/-- Association-list membership / deletion for plain address lists. -/
def eraseAddr : List AddrKey → AddrKey → List AddrKey
  | [], _ => []
  | (a :: rest), k => if a = k then eraseAddr rest k else a :: eraseAddr rest k

/-- The PeerSet state fragment the delete path touches.  Peers carry no
payload beyond their address here: `peers` is the BasicSet contents,
`byAddress` the `#peersByAddress` index, the rest are the address-keyed
contents of the peer store, session manager, channel manager and the
resumption records. -/
structure PeerSetState where
  peers : List AddrKey
  byAddress : List AddrKey
  store : List AddrKey
  sessions : List AddrKey
  channels : List AddrKey
  resumptions : List AddrKey
deriving DecidableEq

/-- `get` (part_001 lines 275-280): look the peer up in `#peersByAddress`. -/
def PeerSet.get (s : PeerSetState) (a : AddrKey) : Option AddrKey :=
  if a ∈ s.byAddress then some a else none

/-- Modelled from the spec: `BasicSet.delete` lives in the `#general`
package, which is not under src/.  Per spec section 5 (single-threaded
cooperative multitasking, mutations only at awaited suspension points, and
the `deleted` observable firing together with the index update) the
`deleted` event fires synchronously, so the observer registered at part_001
lines 144-146 removes the address from `#peersByAddress` before the next
awaited call runs. -/
def peersDelete (s : PeerSetState) (a : AddrKey) : PeerSetState :=
  { s with peers := eraseAddr s.peers a, byAddress := eraseAddr s.byAddress a }

/-- `disconnect` (part_001 lines 285-293): resolve the peer via `get`; if
unknown, return silently; otherwise remove all sessions (hard) and all
channels for the address. -/
def PeerSet.disconnect (s : PeerSetState) (a : AddrKey) : PeerSetState :=
  match PeerSet.get s a with
  | none => s
  | some address =>
    { s with sessions := eraseAddr s.sessions address,
             channels := eraseAddr s.channels address }

/-- `delete` (part_001 lines 298-309): look the peer up (silent no-op when
unknown), then in order: remove it from `#peers` (which synchronously drops
it from `#peersByAddress`), delete it from the store, call `disconnect`,
delete the resumption record. -/
def PeerSet.delete (s : PeerSetState) (a : AddrKey) : PeerSetState :=
  match PeerSet.get s a with
  | none => s
  | some actual =>
    let s1 := peersDelete s actual
    let s2 := { s1 with store := eraseAddr s1.store actual }
    let s3 := PeerSet.disconnect s2 actual
    { s3 with resumptions := eraseAddr s3.resumptions actual }

/- ===================================================================
   PeerAddress interning (src/unnamed/part_002)
   =================================================================== -/

/-- The value content of a logical address (part_002 lines 12-15). -/
structure RawAddress where
  fabricIndex : Nat
  nodeId : Nat
deriving DecidableEq

/-- A PeerAddress reference as seen by clients: either a plain structural
value, or an interned canonical object.  `objId` stands for the object's
identity: the interning table allocates a fresh id per stored object, so
two references are the same JS object exactly when they are both
`internedAddr` with the same `objId` (the hidden `interned` symbol marker
is represented by the constructor itself). -/
inductive PeerAddressObj where
  | raw (a : RawAddress)
  | internedAddr (a : RawAddress) (objId : Nat)
deriving DecidableEq

/-- Inner-map lookup of the two-level interning table (nodeId to object
id). -/
def nodeTableGet : List (Nat × Nat) → Nat → Option Nat
  | [], _ => none
  | ((n, i) :: rest), ni => if n = ni then some i else nodeTableGet rest ni

/-- Outer-map lookup of the two-level interning table (fabricIndex to inner
map). -/
def fabricTableGet : List (Nat × List (Nat × Nat)) → Nat → Option (List (Nat × Nat))
  | [], _ => none
  | ((f, inner) :: rest), fi => if f = fi then some inner else fabricTableGet rest fi

/-- Outer-map insertion/replacement for the interning table. -/
def fabricTableSet : List (Nat × List (Nat × Nat)) → Nat → List (Nat × Nat) →
    List (Nat × List (Nat × Nat))
  | [], fi, inner => [(fi, inner)]
  | ((f, fin) :: rest), fi, inner =>
    if f = fi then (fi, inner) :: rest else (f, fin) :: fabricTableSet rest fi inner

/-- `internedAddresses` lookup (part_002 lines 32-39). -/
def internLookup (t : List (Nat × List (Nat × Nat))) (fi ni : Nat) : Option Nat :=
  match fabricTableGet t fi with
  | none => none
  | some inner => nodeTableGet inner ni

/-- `internedAddresses` insertion (part_002 lines 32-54): create the
per-fabric inner map when missing, then store the node entry. -/
def internInsert (t : List (Nat × List (Nat × Nat))) (fi ni objId : Nat) :
    List (Nat × List (Nat × Nat)) :=
  let inner := (fabricTableGet t fi).getD []
  fabricTableSet t fi ((ni, objId) :: inner)

/-- The module-level interning state: the two-level table plus the next
fresh object identity. -/
structure InternState where
  internedAddresses : List (Nat × List (Nat × Nat))
  nextObjId : Nat
deriving DecidableEq

/-- The `PeerAddress` function (part_002 lines 27-57): short-circuit on an
already-interned object, otherwise return the stored canonical object for
the (fabricIndex, nodeId) pair, creating and registering it when absent. -/
def PeerAddress : InternState → PeerAddressObj → InternState × PeerAddressObj
  | s, .internedAddr a i => (s, .internedAddr a i)
  | s, .raw a =>
    match internLookup s.internedAddresses a.fabricIndex a.nodeId with
    | some i => (s, .internedAddr a i)
    | none =>
      ({ internedAddresses :=
           internInsert s.internedAddresses a.fabricIndex a.nodeId s.nextObjId,
         nextObjId := s.nextObjId + 1 },
       .internedAddr a s.nextObjId)

/-- Entry lookup of the underlying `Map` of a PeerAddressMap; JS Map keys
objects by identity, which for canonical address objects coincides with
structural equality of `PeerAddressObj`. -/
def mapGetEntry {T : Type} : List (PeerAddressObj × T) → PeerAddressObj → Option T
  | [], _ => none
  | ((k, v) :: rest), key => if k = key then some v else mapGetEntry rest key

/-- Entry deletion of the underlying `Map`. -/
def mapDeleteEntry {T : Type} : List (PeerAddressObj × T) → PeerAddressObj →
    List (PeerAddressObj × T)
  | [], _ => []
  | ((k, v) :: rest), key =>
    if k = key then mapDeleteEntry rest key else (k, v) :: mapDeleteEntry rest key

/-- PeerAddressMap.get (part_002 lines 75-77): canonicalize the key, then
look it up. -/
def PeerAddressMap.get {T : Type} (s : InternState) (m : List (PeerAddressObj × T))
    (k : PeerAddressObj) : InternState × Option T :=
  let (s1, ck) := PeerAddress s k
  (s1, mapGetEntry m ck)

/-- PeerAddressMap.set (part_002 lines 71-73): canonicalize the key, then
store under it (JS Map.set replaces an existing entry). -/
def PeerAddressMap.set {T : Type} (s : InternState) (m : List (PeerAddressObj × T))
    (k : PeerAddressObj) (v : T) : InternState × List (PeerAddressObj × T) :=
  let (s1, ck) := PeerAddress s k
  (s1, (ck, v) :: mapDeleteEntry m ck)

/-- PeerAddressMap.has (part_002 lines 67-69). -/
def PeerAddressMap.has {T : Type} (s : InternState) (m : List (PeerAddressObj × T))
    (k : PeerAddressObj) : InternState × Bool :=
  let (s1, ck) := PeerAddress s k
  (s1, (mapGetEntry m ck).isSome)

/-- PeerAddressMap.delete (part_002 lines 63-65). -/
def PeerAddressMap.delete {T : Type} (s : InternState) (m : List (PeerAddressObj × T))
    (k : PeerAddressObj) : InternState × List (PeerAddressObj × T) :=
  let (s1, ck) := PeerAddress s k
  (s1, mapDeleteEntry m ck)

/- ===================================================================
   AsyncConstruction (src/packages/matter.js/src/util/AsyncConstruction.ts,
   lines 94-223)
   =================================================================== -/

/-- LifecycleStatus values used by AsyncConstruction. -/
inductive LifecycleStatus where
  | Initializing
  | Active
  | Incapacitated
  | Destroyed
deriving DecidableEq, Fintype

/-- The mutable closure state of one AsyncConstruction handle: the local
variables of the factory function (error is tracked as a flag; the promise
and placeholder plumbing does not influence ready/status). -/
structure ACState where
  started : Bool
  ready : Bool
  canceled : Bool
  hasError : Bool
  status : LifecycleStatus
  hasInitPromise : Bool
  promiseSettled : Bool
deriving DecidableEq

/-- ACState is a finite type (a tuple of six booleans and a status). -/
def acStateEquiv : ACState ≃ Bool × Bool × Bool × Bool × LifecycleStatus × Bool × Bool where
  toFun s := (s.started, s.ready, s.canceled, s.hasError, s.status,
    s.hasInitPromise, s.promiseSettled)
  invFun p := ⟨p.1, p.2.1, p.2.2.1, p.2.2.2.1, p.2.2.2.2.1, p.2.2.2.2.2.1,
    p.2.2.2.2.2.2⟩
  left_inv _ := rfl
  right_inv _ := rfl

instance : Fintype ACState := Fintype.ofEquiv _ acStateEquiv.symm

/-- Events driving one handle: `startSync ok` is a `start` whose initializer
returns without suspending (`ok = false`: it throws synchronously),
`startAsync` is a `start` whose initializer returns a promise, `cancelCall
hasHook` is a `cancel()` call (with/without a cancel hook supplied to the
factory), and `settleOk`/`settleErr` is the later resolution/rejection of
the initialization promise, running the continuations attached at lines
144-154. -/
inductive ACEvent where
  | startSync (ok : Bool)
  | startAsync
  | cancelCall (hasHook : Bool)
  | settleOk
  | settleErr
deriving DecidableEq

/-- Initial closure state (AsyncConstruction.ts lines 99-106). -/
def ACState.init : ACState :=
  ⟨false, false, false, false, .Initializing, false, false⟩

/-- One event step, straight from the handler bodies (start: lines 121-161;
cancel: lines 163-172; promise continuations: lines 144-154).  A second
`start` throws before mutating anything; `cancel` is a no-op when ready,
already canceled, or without a hook; the settle continuations run once when
the tracked initialization promise settles. -/
def acStep (s : ACState) (e : ACEvent) : ACState :=
  match e with
  | .startSync ok =>
    if s.started then s
    else if ok then { s with started := true, ready := true, status := .Active }
    else { s with started := true, ready := true, hasError := true,
                  status := .Incapacitated }
  | .startAsync =>
    if s.started then s
    else { s with started := true, ready := false, hasInitPromise := true }
  | .cancelCall hasHook =>
    if s.ready || s.canceled then s
    else if hasHook then { s with canceled := true, status := .Destroyed }
    else s
  | .settleOk =>
    if s.hasInitPromise && !s.promiseSettled then
      { s with ready := true, status := .Active, promiseSettled := true }
    else s
  | .settleErr =>
    if s.hasInitPromise && !s.promiseSettled then
      { s with ready := true, hasError := true, status := .Incapacitated,
               promiseSettled := true }
    else s

/-- Run a list of events from a state. -/
def acRun : ACState → List ACEvent → ACState
  | s, [] => s
  | s, e :: es => acRun (acStep s e) es

/-- Run a list of events from the initial state of a fresh handle. -/
def acExec (es : List ACEvent) : ACState :=
  acRun ACState.init es

/-- Machine invariant of reachable handle states. -/
abbrev acInv (s : ACState) : Prop :=
  (s.ready = true → s.started = true) ∧
  (s.hasInitPromise = true → s.started = true) ∧
  ((s.status = .Active ∨ s.status = .Incapacitated) →
    s.ready = true ∧ (s.hasInitPromise = true → s.promiseSettled = true))

/- ===================================================================
   FloatSchema.validate (src/unnamed/part_003, lines 20-50)
   =================================================================== -/

/-- A TLV float schema's bounds (part_003 lines 21-27); the encoding
precision plays no role in validate.  Numeric values are modelled as
integers: validate only compares and prints them. -/
structure FloatSchema where
  min : Option Int
  max : Option Int
deriving DecidableEq

/-- How an optional bound renders inside a template literal. -/
def renderBound : Option Int → String
  | none => "undefined"
  | some v => toString v

/-- `validate` (part_003 lines 46-49), returning the thrown message if any.
Both messages interpolate `this.min` — including the above-maximum one,
exactly as in the source. -/
def FloatSchema.validate (s : FloatSchema) (value : Int) : Option String :=
  match s.min with
  | some m =>
    if value < m then
      some ("Invalid value: " ++ toString value ++ " is below the minimum, " ++
        renderBound s.min ++ ".")
    else
      match s.max with
      | some mx =>
        if value > mx then
          some ("Invalid value: " ++ toString value ++ " is above the maximum, " ++
            renderBound s.min ++ ".")
        else none
      | none => none
  | none =>
    match s.max with
    | some mx =>
      if value > mx then
        some ("Invalid value: " ++ toString value ++ " is above the maximum, " ++
          renderBound s.min ++ ".")
      else none
    | none => none

/- ===================================================================
   #knownOperationalAddressFor (part_001, lines 609-631)
   =================================================================== -/

/-- An ip/port server address (ServerAddressIp). -/
structure ServerAddressIp where
  ip : String
  port : Nat
deriving DecidableEq

/-- The mDNS scanner's cached discovered-device record for a (fabric, node):
the object returned by `getDiscoveredOperationalDevice`, whose `addresses`
array the function mutates in place. -/
structure DiscoveredDevice where
  addresses : List ServerAddressIp
deriving DecidableEq

/-- #knownOperationalAddressFor: `discovered` is the scanner's cached record
(if any), `lastKnown` the peer's stored operational address (if any).
Returns the chosen address together with the record as left behind in the
scanner's cache (the source empties `discoveredAddresses.addresses` in
place when the last known address appears among the discovered ones). -/
def knownOperationalAddressFor (discovered : Option DiscoveredDevice)
    (lastKnown : Option ServerAddressIp) :
    Option ServerAddressIp × Option DiscoveredDevice :=
  let cleared : Option DiscoveredDevice :=
    match lastKnown, discovered with
    | some lk, some d =>
      if d.addresses.any (fun x => x.ip == lk.ip && x.port == lk.port) then
        some ⟨[]⟩
      else some d
    | _, d => d
  (match cleared with
   | some d => d.addresses.head?
   | none => none,
   cleared)

/- ===================================================================
   Theorems
   =================================================================== -/

theorem getKey_eraseKey (c : List (AddrKey × Nat)) (a : AddrKey) :
    getKey (eraseKey c a) a = none := by
  induction c with
  | nil => rfl
  | cons p rest ih =>
    by_cases h : p.1 = a <;> simp [eraseKey, getKey, h, ih]

/-- C4: for every CASE pairing in which the driver reports resumed = false,
the nodeCachedData entry for the peer's address is dropped before #pair
returns, so a read of the cache immediately afterwards finds nothing; when
resumed = true the cache is retained unchanged. -/
theorem c4_not_resumed_drops_cache (cache : List (AddrKey × Nat)) (address : AddrKey) :
    getKey (caseSessionCacheUpdate cache address false) address = none ∧
    caseSessionCacheUpdate cache address true = cache := by
  refine ⟨?_, ?_⟩
  · simpa [caseSessionCacheUpdate] using getKey_eraseKey cache address
  · simp [caseSessionCacheUpdate]

/-- C6 (code_bug evidence): deleting the known peer (1,5) — present in the
set, index, store, sessions, channels and resumption records — removes it
from the set and index (get then yields none), from the store and from the
resumption records, but leaves its sessions and channels in place, because
`disconnect` runs after the peer was already removed from `#peersByAddress`
and therefore no-ops; deleting an unknown peer changes nothing. -/
theorem c6_delete_leaves_channels :
    PeerSet.delete ⟨[(1, 5)], [(1, 5)], [(1, 5)], [(1, 5)], [(1, 5)], [(1, 5)]⟩ (1, 5) =
      ⟨[], [], [], [(1, 5)], [(1, 5)], []⟩ ∧
    PeerSet.get
      (PeerSet.delete ⟨[(1, 5)], [(1, 5)], [(1, 5)], [(1, 5)], [(1, 5)], [(1, 5)]⟩ (1, 5))
      (1, 5) = none ∧
    PeerSet.delete ⟨[], [], [], [(9, 9)], [(9, 9)], []⟩ (9, 9) =
      ⟨[], [], [], [(9, 9)], [(9, 9)], []⟩ := by
  decide

/-- C3 (code_bug evidence): a connect request with discoveryType None and no
cached operational address falls through to the discovery branch — a fresh
RunningDiscovery of type None is registered and the mDNS scan producer is
started — while with a cached address the direct reconnect is attempted and
its failure raises a DiscoveryError immediately. -/
theorem c3_none_request_starts_discovery :
    connectOrDiscoverNode none false (some .None) none .timeout 0 =
      ⟨.ok (.startedDiscovery [0]), [], some ⟨.None, some [0], false⟩⟩ ∧
    connectOrDiscoverNode none true (some .None) none .timeout 0 =
      ⟨.error (.discovery "Address is not reachable right now."),
        [.reconnectKnownAddress], none⟩ := by
  decide

/-- C1 counterexample: a TimedDiscovery with pending-channel producer [7] is
running and FullDiscovery is requested (no cached address).  The scanner is
told to cancel and the entry is removed, but the call then returns a wait on
the cancelled discovery's own producer list [7] and registers no new
FullDiscovery — the result does not come from a newly started discovery of
the requested type. -/
theorem c1_counterexample :
    connectOrDiscoverNode (some ⟨.TimedDiscovery, some [7], false⟩) false
        (some .FullDiscovery) none .timeout 3 =
      ⟨.ok (.awaitExisting [7]), [.cancelOperationalDeviceDiscovery], none⟩ := by
  decide

/-- C2 counterexample: a FullDiscovery with pending-channel producer [7] is
running and the strictly lower TimedDiscovery is requested: instead of
returning a wait on the existing producers, the call throws a
DiscoveryError (and starts nothing new). -/
theorem c2_counterexample :
    connectOrDiscoverNode (some ⟨.FullDiscovery, some [7], false⟩) false
        (some .TimedDiscovery) none .timeout 0 =
      ⟨.error
          (.discovery "Address is not reachable right now and discovery already running."),
        [], some ⟨.FullDiscovery, some [7], false⟩⟩ := by
  decide

/-- C5 counterexample: when a channel is already cached for the address,
connect returns an InteractionClient over it without ever reaching the
configuration validation — a call requesting RetransmissionDiscovery, or
supplying timeoutSeconds with FullDiscovery, succeeds instead of throwing
an ImplementationError. -/
theorem c5_counterexample :
    PeerSet.connect true true none false (some .RetransmissionDiscovery) none .timeout 0 =
      ⟨.ok .fromCachedChannel, [], none⟩ ∧
    PeerSet.connect true true none false (some .FullDiscovery) (some 5) .timeout 0 =
      ⟨.ok .fromCachedChannel, [], none⟩ := by
  decide

/-- C9: for a FloatSchema with both bounds configured, validate throws
exactly when the value is below the minimum or above the maximum, and the
above-maximum message interpolates the configured minimum (the wrong
bound), exactly as the source does. -/
theorem c9_float_validate_wrong_bound (m mx v : Int) :
    ((FloatSchema.validate ⟨some m, some mx⟩ v).isSome = true ↔ (v < m ∨ v > mx)) ∧
    (m ≤ v → v > mx →
      FloatSchema.validate ⟨some m, some mx⟩ v =
        some ("Invalid value: " ++ toString v ++ " is above the maximum, " ++
          toString m ++ ".")) := by
  constructor
  · simp only [FloatSchema.validate, renderBound]
    split_ifs <;> simp <;> omega
  · intro h1 h2
    simp only [FloatSchema.validate, renderBound]
    split_ifs <;> first | rfl | omega

/-- C9 witness: minimum 0, maximum 10, value 11 is above the maximum and
the thrown message interpolates the minimum 0. -/
theorem c9_float_validate_wrong_bound_witness :
    (0 : Int) ≤ 11 ∧ (11 : Int) > 10 ∧
    FloatSchema.validate ⟨some 0, some 10⟩ 11 =
      some ("Invalid value: " ++ toString (11 : Int) ++ " is above the maximum, " ++
        toString (0 : Int) ++ ".") :=
  ⟨by decide, by decide,
    (c9_float_validate_wrong_bound 0 10 11).2 (by decide) (by decide)⟩

/-- C10: #knownOperationalAddressFor — when the peer's last known
operational address structurally equals (same ip and port) some address of
the scanner's cached discovered-device record, the record's address list is
emptied in place and undefined is returned; otherwise the first cached
discovered address is returned with the record untouched; with no cached
record the result is undefined. -/
theorem c10_known_operational_address (d : DiscoveredDevice) (lk : ServerAddressIp) :
    (d.addresses.any (fun x => x.ip == lk.ip && x.port == lk.port) = true →
      knownOperationalAddressFor (some d) (some lk) = (none, some ⟨[]⟩)) ∧
    (d.addresses.any (fun x => x.ip == lk.ip && x.port == lk.port) = false →
      knownOperationalAddressFor (some d) (some lk) = (d.addresses.head?, some d)) ∧
    (knownOperationalAddressFor (some d) none = (d.addresses.head?, some d)) ∧
    (∀ lkOpt, knownOperationalAddressFor none lkOpt = (none, none)) := by
  refine ⟨?_, ?_, ?_, ?_⟩
  · intro h; simp [knownOperationalAddressFor, h]
  · intro h; simp [knownOperationalAddressFor, h]
  · simp [knownOperationalAddressFor]
  · intro lkOpt; cases lkOpt <;> rfl

/-- C10 witness: the last known address fe80::1:5540 occurs in the cached
record, so the record is emptied and undefined is returned. -/
theorem c10_known_operational_address_witness :
    (DiscoveredDevice.mk [ServerAddressIp.mk "fe80::1" 5540]).addresses.any
        (fun x => x.ip == "fe80::1" && x.port == 5540) = true ∧
    knownOperationalAddressFor (some ⟨[⟨"fe80::1", 5540⟩]⟩) (some ⟨"fe80::1", 5540⟩) =
      (none, some ⟨[]⟩) :=
  ⟨by decide,
    (c10_known_operational_address ⟨[⟨"fe80::1", 5540⟩]⟩ ⟨"fe80::1", 5540⟩).1 (by decide)⟩

theorem fabricTableGet_set (t : List (Nat × List (Nat × Nat))) (fi : Nat)
    (inner : List (Nat × Nat)) :
    fabricTableGet (fabricTableSet t fi inner) fi = some inner := by
  induction t with
  | nil => simp [fabricTableSet, fabricTableGet]
  | cons p rest ih =>
    obtain ⟨f, fin⟩ := p
    by_cases h : f = fi <;> simp [fabricTableSet, fabricTableGet, h, ih]

theorem internLookup_insert (t : List (Nat × List (Nat × Nat))) (fi ni objId : Nat) :
    internLookup (internInsert t fi ni objId) fi ni = some objId := by
  simp [internInsert, internLookup, fabricTableGet_set, nodeTableGet]

theorem mapGetEntry_delete {T : Type} (m : List (PeerAddressObj × T))
    (k : PeerAddressObj) :
    mapGetEntry (mapDeleteEntry m k) k = none := by
  induction m with
  | nil => rfl
  | cons p rest ih =>
    obtain ⟨k0, v0⟩ := p
    by_cases h : k0 = k <;> simp [mapDeleteEntry, mapGetEntry, h, ih]

theorem peerAddress_raw_lookup (s : InternState) (a : RawAddress) :
    ∃ s1 i, PeerAddress s (.raw a) = (s1, .internedAddr a i) ∧
      internLookup s1.internedAddresses a.fabricIndex a.nodeId = some i := by
  cases h : internLookup s.internedAddresses a.fabricIndex a.nodeId with
  | none =>
    refine ⟨⟨internInsert s.internedAddresses a.fabricIndex a.nodeId s.nextObjId,
      s.nextObjId + 1⟩, s.nextObjId, ?_, ?_⟩
    · simp [PeerAddress, h]
    · simpa using
        internLookup_insert s.internedAddresses a.fabricIndex a.nodeId s.nextObjId
  | some i =>
    exact ⟨s, i, by simp [PeerAddress, h], h⟩

/-- C7: interning is canonical and idempotent — for structurally equal raw
addresses a and b, interning b right after a yields the identical canonical
object and leaves the interning state untouched; re-interning a canonical
object returns it unchanged; and PeerAddressMap's set/get/has/delete
canonicalize their keys, so any structurally equal key addresses the same
entry. -/
theorem c7_interning_canonical_idempotent (s : InternState)
    (m : List (PeerAddressObj × Nat)) (v : Nat) (a b : RawAddress)
    (hf : a.fabricIndex = b.fabricIndex) (hn : a.nodeId = b.nodeId) :
    PeerAddress (PeerAddress s (.raw a)).1 (.raw b) = PeerAddress s (.raw a) ∧
    PeerAddress (PeerAddress s (.raw a)).1 (PeerAddress s (.raw a)).2 =
      PeerAddress s (.raw a) ∧
    (PeerAddressMap.get (PeerAddressMap.set s m (.raw a) v).1
      (PeerAddressMap.set s m (.raw a) v).2 (.raw b)).2 = some v ∧
    (PeerAddressMap.has (PeerAddressMap.set s m (.raw a) v).1
      (PeerAddressMap.set s m (.raw a) v).2 (.raw b)).2 = true ∧
    (PeerAddressMap.get
      (PeerAddressMap.delete (PeerAddressMap.set s m (.raw a) v).1
        (PeerAddressMap.set s m (.raw a) v).2 (.raw b)).1
      (PeerAddressMap.delete (PeerAddressMap.set s m (.raw a) v).1
        (PeerAddressMap.set s m (.raw a) v).2 (.raw b)).2 (.raw a)).2 = none := by
  have hab : a = b := by cases a; cases b; simp_all
  subst hab
  obtain ⟨s1, i, hpair, hlook⟩ := peerAddress_raw_lookup s a
  have hagain : PeerAddress s1 (.raw a) = (s1, .internedAddr a i) := by
    simp [PeerAddress, hlook]
  have hset : PeerAddressMap.set s m (.raw a) v =
      (s1, (PeerAddressObj.internedAddr a i, v) ::
        mapDeleteEntry m (.internedAddr a i)) := by
    unfold PeerAddressMap.set
    rw [hpair]
  have hget : ∀ (mm : List (PeerAddressObj × Nat)),
      PeerAddressMap.get s1 mm (.raw a) =
        (s1, mapGetEntry mm (.internedAddr a i)) := by
    intro mm
    unfold PeerAddressMap.get
    rw [hagain]
  have hhas : ∀ (mm : List (PeerAddressObj × Nat)),
      PeerAddressMap.has s1 mm (.raw a) =
        (s1, (mapGetEntry mm (.internedAddr a i)).isSome) := by
    intro mm
    unfold PeerAddressMap.has
    rw [hagain]
  have hdel : ∀ (mm : List (PeerAddressObj × Nat)),
      PeerAddressMap.delete s1 mm (.raw a) =
        (s1, mapDeleteEntry mm (.internedAddr a i)) := by
    intro mm
    unfold PeerAddressMap.delete
    rw [hagain]
  refine ⟨?_, ?_, ?_, ?_, ?_⟩
  · rw [hpair]; exact hagain
  · rw [hpair]; rfl
  · simp only [hset, hget]
    simp [mapGetEntry]
  · simp only [hset, hhas]
    simp [mapGetEntry]
  · simp only [hset, hdel, hget]
    simp [mapGetEntry_delete]

/-- C7 witness: interning peer 1:0x12345 twice in the empty state yields
identical results, and a map entry stored under one copy is found under the
other. -/
theorem c7_interning_canonical_idempotent_witness :
    PeerAddress (PeerAddress ⟨[], 0⟩ (.raw ⟨1, 74565⟩)).1 (.raw ⟨1, 74565⟩) =
      PeerAddress ⟨[], 0⟩ (.raw ⟨1, 74565⟩) ∧
    (PeerAddressMap.get (PeerAddressMap.set ⟨[], 0⟩ [] (.raw ⟨1, 74565⟩) 42).1
      (PeerAddressMap.set ⟨[], 0⟩ [] (.raw ⟨1, 74565⟩) 42).2 (.raw ⟨1, 74565⟩)).2 =
      some 42 :=
  ⟨(c7_interning_canonical_idempotent ⟨[], 0⟩ [] 42 ⟨1, 74565⟩ ⟨1, 74565⟩ rfl rfl).1,
   (c7_interning_canonical_idempotent ⟨[], 0⟩ [] 42 ⟨1, 74565⟩ ⟨1, 74565⟩ rfl rfl).2.2.1⟩

theorem acInv_init : acInv ACState.init := by decide

theorem acInv_step (s : ACState) (e : ACEvent) (h : acInv s) : acInv (acStep s e) := by
  revert s
  cases e with
  | startSync ok => cases ok <;> decide
  | startAsync => decide
  | cancelCall hasHook => cases hasHook <;> decide
  | settleOk => decide
  | settleErr => decide

theorem acInv_acRun (es : List ACEvent) (s : ACState) (h : acInv s) :
    acInv (acRun s es) := by
  induction es generalizing s with
  | nil => exact h
  | cons e rest ih => exact ih _ (acInv_step s e h)

theorem acMono (s : ACState) (e : ACEvent) (h : acInv s) :
    (s.ready = true → (acStep s e).ready = true) ∧
    (s.status = .Active → (acStep s e).status = .Active) ∧
    (s.status = .Incapacitated → (acStep s e).status = .Incapacitated) := by
  revert s
  cases e with
  | startSync ok => cases ok <;> decide
  | startAsync => decide
  | cancelCall hasHook => cases hasHook <;> decide
  | settleOk => decide
  | settleErr => decide

/-- C8 amended: along every event trace of an AsyncConstruction handle,
ready never regresses from true to false, and the statuses Active and
Incapacitated are terminal; Destroyed (reached by a successful cancel) is
not terminal — when the cancelled initializer's promise later settles, the
attached continuations overwrite the status with Active or Incapacitated. -/
theorem c8_ready_monotone_terminal_amended (es : List ACEvent) (e : ACEvent) :
    ((acExec es).ready = true → (acStep (acExec es) e).ready = true) ∧
    ((acExec es).status = .Active → (acStep (acExec es) e).status = .Active) ∧
    ((acExec es).status = .Incapacitated →
      (acStep (acExec es) e).status = .Incapacitated) :=
  acMono (acExec es) e (acInv_acRun es ACState.init acInv_init)

/-- C8 amended witness: after a synchronous successful start the status is
Active, and a subsequent cancel leaves it Active. -/
theorem c8_ready_monotone_terminal_amended_witness :
    (acExec [ACEvent.startSync true]).status = .Active ∧
    (acStep (acExec [ACEvent.startSync true]) (.cancelCall true)).status = .Active :=
  ⟨by decide,
    (c8_ready_monotone_terminal_amended [ACEvent.startSync true]
      (.cancelCall true)).2.1 (by decide)⟩

/-- C8 counterexample: start an asynchronous initializer, cancel with a
cancel hook — the status becomes the terminal value Destroyed — then the
initializer's promise resolves and the continuation attached by start
overwrites the status with Active: the status does not reach exactly one
terminal value, and the terminal status changes afterwards. -/
theorem c8_counterexample :
    (acExec [ACEvent.startAsync, ACEvent.cancelCall true]).status =
      LifecycleStatus.Destroyed ∧
    (acExec [ACEvent.startAsync, ACEvent.cancelCall true, ACEvent.settleOk]).status =
      LifecycleStatus.Active := by
  decide

/-- C1 amended: a connect request on an address with a RunningDiscovery of
strictly lower type does cancel the running discovery — the scanner is told
to stop for that (fabric, node) and the entry is removed — but it is not
always replaced by a new discovery of the requested type: when a cached
operational address reconnects directly the channel (or error) comes from
that attempt; otherwise, when the cancelled discovery had a pending-channel
producer list, the caller's result is a wait on exactly those producers and
no new discovery is registered; only when the cancelled entry had no
producer list (a resubmission-reactor placeholder) is a new discovery of
the requested type started and registered. -/
theorem c1_lower_discovery_cancelled_amended (rd : RunningDiscovery) (opAddr : Bool)
    (dt : Option NodeDiscoveryType) (ts : Option Nat) (oracle : ReconnectOutcome)
    (nid : Nat)
    (h1 : rd.type ≠ .None)
    (h2 : rd.type.val < (requestedOf dt).val)
    (h3 : ts = none ∨ requestedOf dt = .TimedDiscovery) :
    (connectOrDiscoverNode (some rd) opAddr dt ts oracle nid).actions =
      .cancelOperationalDeviceDiscovery ::
        (if opAddr = true then [PeerAction.reconnectKnownAddress] else []) ∧
    c1Post opAddr oracle rd.promises (requestedOf dt) nid
      (connectOrDiscoverNode (some rd) opAddr dt ts oracle nid) := by
  obtain ⟨t, ps, tm⟩ := rd
  simp only at h1 h2 ⊢
  have hVr : requestedOf dt ≠ .RetransmissionDiscovery ∧ requestedOf dt ≠ .None := by
    constructor <;> intro hh <;> rw [hh] at h2 <;> cases t <;>
      simp_all [NodeDiscoveryType.val]
  have hV : validationError dt ts = none := by
    rcases h3 with h3 | h3
    · subst h3; simp [validationError, hVr.1]
    · simp [validationError, h3]
  simp only [connectOrDiscoverNode, hV, Option.getD_some]
  rw [if_pos ⟨h1, h2⟩]
  cases opAddr <;> cases oracle <;> cases ps <;>
    simp [afterCancel, discoveryTail, c1Post, hVr.2, NodeDiscoveryType.val]

/-- C1 amended witness: a running TimedDiscovery with producer list [7],
request FullDiscovery with no cached address — the scanner is cancelled and
the result is a wait on the cancelled discovery's producers. -/
theorem c1_lower_discovery_cancelled_amended_witness :
    (connectOrDiscoverNode (some ⟨.TimedDiscovery, some [7], false⟩) false
        (some .FullDiscovery) none .timeout 3).actions =
      [PeerAction.cancelOperationalDeviceDiscovery] ∧
    c1Post false .timeout (some [7]) (requestedOf (some .FullDiscovery)) 3
      (connectOrDiscoverNode (some ⟨.TimedDiscovery, some [7], false⟩) false
        (some .FullDiscovery) none .timeout 3) := by
  have h := c1_lower_discovery_cancelled_amended ⟨.TimedDiscovery, some [7], false⟩
    false (some .FullDiscovery) none .timeout 3 (by decide) (by decide) (Or.inl rfl)
  simpa using h

/-- C2 amended: when a RunningDiscovery with a pending-channel producer list
exists and both the running and the requested type are not None, a request
of type equal to the running type returns a wait on the existing producers
via the any-of combinator (no error, nothing new started, entry untouched),
but a request of strictly lower type raises a DiscoveryError instead of
waiting.  (A None request additionally attempts a direct reconnect first
when a cached address exists; see C3.) -/
theorem c2_equal_reuses_promises_amended (t : NodeDiscoveryType) (ps : List Nat)
    (tm : Bool) (opAddr : Bool) (dt : Option NodeDiscoveryType) (ts : Option Nat)
    (oracle : ReconnectOutcome) (nid : Nat)
    (hT : t ≠ .None)
    (hq0 : requestedOf dt ≠ .None)
    (hr : requestedOf dt ≠ .RetransmissionDiscovery)
    (hts : ts = none ∨ requestedOf dt = .TimedDiscovery)
    (hle : (requestedOf dt).val ≤ t.val) :
    (requestedOf dt = t →
      connectOrDiscoverNode (some ⟨t, some ps, tm⟩) opAddr dt ts oracle nid =
        ⟨.ok (.awaitExisting ps), [], some ⟨t, some ps, tm⟩⟩) ∧
    ((requestedOf dt).val < t.val →
      connectOrDiscoverNode (some ⟨t, some ps, tm⟩) opAddr dt ts oracle nid =
        ⟨.error
            (.discovery "Address is not reachable right now and discovery already running."),
          [], some ⟨t, some ps, tm⟩⟩) := by
  have hV : validationError dt ts = none := by
    rcases hts with hts | hts
    · subst hts; simp [validationError, hr]
    · simp [validationError, hts]
  have hNoCancel : ¬(t ≠ NodeDiscoveryType.None ∧ t.val < (requestedOf dt).val) := by
    rintro ⟨-, hlt⟩; omega
  have hNoDirect :
      ¬(opAddr = true ∧ (t = NodeDiscoveryType.None ∨ requestedOf dt = NodeDiscoveryType.None)) := by
    rintro ⟨-, h | h⟩
    · exact hT h
    · exact hq0 h
  constructor
  · intro he
    simp only [connectOrDiscoverNode, hV, Option.getD_some]
    rw [if_neg hNoCancel]
    simp only [afterCancel]
    rw [if_neg hNoDirect]
    simp [discoveryTail, he]
  · intro hlt
    simp only [connectOrDiscoverNode, hV, Option.getD_some]
    rw [if_neg hNoCancel]
    simp only [afterCancel]
    rw [if_neg hNoDirect]
    simp [discoveryTail, hlt]

/-- C2 amended witness: a running FullDiscovery with producer list [7] and a
second FullDiscovery request — the call returns a wait on the existing
producers and changes nothing. -/
theorem c2_equal_reuses_promises_amended_witness :
    connectOrDiscoverNode (some ⟨.FullDiscovery, some [7], false⟩) false
        (some .FullDiscovery) none .timeout 0 =
      ⟨.ok (.awaitExisting [7]), [], some ⟨.FullDiscovery, some [7], false⟩⟩ :=
  (c2_equal_reuses_promises_amended .FullDiscovery [7] false false
    (some .FullDiscovery) none .timeout 0 (by decide) (by decide) (by decide)
    (Or.inl rfl) (by decide)).1 rfl

/-- C5 amended: the configuration checks run only when no channel is cached
for the address: then a request for RetransmissionDiscovery, or a
timeoutSeconds with a discovery type other than TimedDiscovery, throws an
ImplementationError before any discovery or pairing action happens, and the
error propagates unchanged through resume and connect; when a channel is
cached, connect returns it without validating the discovery options. -/
theorem c5_config_rejected_amended (peerKnown : Bool)
    (existing : Option RunningDiscovery) (opAddr : Bool)
    (dt : Option NodeDiscoveryType) (ts : Option Nat) (oracle : ReconnectOutcome)
    (nid : Nat)
    (h : requestedOf dt = .RetransmissionDiscovery ∨
      (ts ≠ none ∧ requestedOf dt ≠ .TimedDiscovery)) :
    (∃ msg, (PeerSet.connect false peerKnown existing opAddr dt ts oracle nid).result =
      .error (.implementation msg)) ∧
    (PeerSet.connect false peerKnown existing opAddr dt ts oracle nid).actions = [] := by
  have hV : ∃ msg, validationError dt ts = some (.implementation msg) := by
    by_cases hc : ts ≠ none ∧ requestedOf dt ≠ .TimedDiscovery
    · exact ⟨"Cannot set timeout without timed discovery.", by simp [validationError, hc]⟩
    · rcases h with h | h
      · cases hts : ts with
        | none =>
          exact ⟨"Cannot set retransmission discovery type.",
            by simp [validationError, h, hts]⟩
        | some n =>
          exact absurd ⟨by simp [hts], by simp [h]⟩ hc
      · exact absurd h hc
  obtain ⟨msg, hV⟩ := hV
  refine ⟨⟨msg, ?_⟩, ?_⟩ <;>
    simp [PeerSet.connect, PeerSet.resume, connectOrDiscoverNode, hV, isResumeCaught]

/-- C5 amended witness: no cached channel and a RetransmissionDiscovery
request — connect throws an ImplementationError having performed no
discovery or pairing action. -/
theorem c5_config_rejected_amended_witness :
    (∃ msg,
      (PeerSet.connect false true none false (some .RetransmissionDiscovery) none
        .timeout 0).result = .error (.implementation msg)) ∧
    (PeerSet.connect false true none false (some .RetransmissionDiscovery) none
      .timeout 0).actions = [] :=
  c5_config_rejected_amended true none false (some .RetransmissionDiscovery) none
    .timeout 0 (Or.inl rfl)

end MatterJs
